import Mathlib

/-!
Shallow embedding of the Crown-Webpage client-side scripts:
the slideshow/gallery/lightbox controller and the order-form
validator/submitter.  Definitions mirror the JavaScript source;
theorems settle the specification claims about them.
-/

namespace Crown

/-! ## JavaScript string helpers

`jsOrS a b` models the JS expression `a || b` where `a` is a nullable
string attribute: `null`/`undefined` and the empty string are falsy. -/

def jsOrS (a : Option String) (b : String) : String :=
  match a with
  | some s => if s = "" then b else s
  | none => b

/-- Models JS `String.prototype.trim()`: drop leading and trailing
whitespace (whitespace as judged by `Char.isWhitespace`). -/
def jsTrim (s : String) : String :=
  String.mk (((s.data.dropWhile Char.isWhitespace).reverse.dropWhile
    Char.isWhitespace).reverse)

/-- Models `.replace(/\*$/, "")`: remove a single trailing asterisk. -/
def stripTrailingStar (s : String) : String :=
  if s.data.getLast? = some '*' then String.mk s.data.dropLast else s

/-! ## Form controller data model (src/unnamed/part_002) -/

/-- A form control as seen by `validateForm`/`humanLabel`: its `type`,
checked state, value, and the attributes the script reads.  `classError`
models membership of the `field-error` class. -/
structure Control where
  ctype : String
  checked : Bool
  value : String
  idAttr : Option String
  nameAttr : Option String
  placeholder : Option String
  required : Bool
  classError : Bool
deriving DecidableEq, Repr

/-- One `.item-row` element: the four per-row fields, each `none` when the
corresponding input/textarea is absent (`querySelector` returns null). -/
structure ItemRow where
  qty : Option String
  desc : Option String
  material : Option String
  notes : Option String
deriving DecidableEq, Repr

/-- The record built from one row by `submitOrder` (`?.value || ""`). -/
structure Item where
  qty : String
  desc : String
  material : String
  notes : String
deriving DecidableEq, Repr

/-- The submit button: disabled flag, visible text, and `dataset._text`. -/
structure Button where
  disabled : Bool
  textContent : String
  datasetText : Option String
deriving DecidableEq, Repr

/-- A form: its `id`, its controls (in document order), its `.item-row`
elements, and its `button[type="submit"]` if any. -/
structure Form where
  id : String
  controls : List Control
  itemRows : List ItemRow
  submitBtn : Option Button
deriving DecidableEq, Repr

/-- The surrounding document: `label[for=...]` elements as (for, text)
pairs in document order, and the item-container elements keyed by id
(`#q_itemsBody` / `#l_itemsBody`). -/
structure Doc where
  labels : List (String × String)
  containers : List (String × List ItemRow)
deriving DecidableEq, Repr

/-- The error panel: its `style.display` and `innerHTML`. -/
structure ErrorBox where
  display : String
  innerHTML : String
deriving DecidableEq, Repr

/-- `humanLabel(el)`: label text (trimmed, trailing `*` stripped) of the
first `label[for=<id>]` when the control has a truthy id and such a label
exists, else `(name || placeholder || "Required field").trim()`. -/
def humanLabel (doc : Doc) (el : Control) : String :=
  match el.idAttr with
  | some i =>
    if i ≠ "" then
      match doc.labels.lookup i with
      | some txt => stripTrailingStar (jsTrim txt)
      | none => jsTrim (jsOrS el.nameAttr (jsOrS el.placeholder "Required field"))
    else jsTrim (jsOrS el.nameAttr (jsOrS el.placeholder "Required field"))
  | none => jsTrim (jsOrS el.nameAttr (jsOrS el.placeholder "Required field"))

/-- Per-control validity: `el.type === "checkbox" ? el.checked :
!!(el.value || "").trim()`. -/
def controlOk (el : Control) : Bool :=
  if el.ctype = "checkbox" then el.checked else !(jsTrim el.value == "")

/-- `el.classList.toggle("field-error", !ok)` applied to each control of
`querySelectorAll("[required]")`; other controls are untouched. -/
def markOne (el : Control) : Control :=
  if el.required then { el with classError := !(controlOk el) } else el

/-- The `missing` list collected by `validateForm`: the human label of
every invalid required control, in document order, plus the literal
"At least 1 item line" when the form has no `.item-row`. -/
def collectMissing (doc : Doc) (form : Form) : List String :=
  ((form.controls.filter (fun el => el.required && !(controlOk el))).map (humanLabel doc))
    ++ (if form.itemRows.length = 0 then ["At least 1 item line"] else [])

/-- The innerHTML written to the error panel on failure: a header plus one
`<li>` per missing entry. -/
def errorsHtml (missing : List String) : String :=
  "<strong>Please complete the required fields:</strong><ul>"
    ++ String.join (missing.map (fun m => "<li>" ++ m ++ "</li>"))
    ++ "</ul>"

/-- `validateForm(form, errorBox)`: marks every required control, collects
the missing labels, populates/shows or hides/clears the panel, and returns
(updated form, updated panel, success flag). -/
def validateForm (doc : Doc) (form : Form) (_eb : ErrorBox) :
    Form × ErrorBox × Bool :=
  let form1 : Form := { form with controls := form.controls.map markOne }
  let missing := collectMissing doc form
  if missing.isEmpty then
    (form1, { display := "none", innerHTML := "" }, true)
  else
    (form1, { display := "block", innerHTML := errorsHtml missing }, false)

/-! ## encodeURIComponent -/

/-- Uppercase hexadecimal digit for `n < 16`. -/
def hexDigit (n : Nat) : Char :=
  if n < 10 then Char.ofNat (48 + n) else Char.ofNat (55 + n)

/-- The UTF-8 bytes of the code point `n`. -/
def utf8Bytes (n : Nat) : List Nat :=
  if n < 128 then [n]
  else if n < 2048 then [192 + n / 64, 128 + n % 64]
  else if n < 65536 then [224 + n / 4096, 128 + (n / 64) % 64, 128 + n % 64]
  else [240 + n / 262144, 128 + (n / 4096) % 64, 128 + (n / 64) % 64, 128 + n % 64]

/-- `%XX` percent-escape of one byte, uppercase hex as the browser emits. -/
def percentByte (b : Nat) : String :=
  "%" ++ String.singleton (hexDigit (b / 16)) ++ String.singleton (hexDigit (b % 16))

/-- Characters `encodeURIComponent` leaves unescaped: alphanumerics and
`- _ . ! ~ * ' ( )` (code points 45, 95, 46, 33, 126, 42, 39, 40, 41). -/
def uriUnreserved (c : Char) : Bool :=
  let n := c.toNat
  (48 ≤ n && n ≤ 57) || (65 ≤ n && n ≤ 90) || (97 ≤ n && n ≤ 122)
    || n = 45 || n = 95 || n = 46 || n = 33 || n = 126
    || n = 42 || n = 39 || n = 40 || n = 41

/-- `encodeURIComponent(s)`. -/
def encodeURIComponent (s : String) : String :=
  String.join (s.data.map (fun c =>
    if uriUnreserved c then String.singleton c
    else String.join ((utf8Bytes c.toNat).map percentByte)))

/-! ## JSON.stringify for the items list -/

/-- Lowercase hexadecimal digit for `n < 16`. -/
def hexDigitLower (n : Nat) : Char :=
  if n < 10 then Char.ofNat (48 + n) else Char.ofNat (87 + n)

/-- JSON escape of one character, as `JSON.stringify` emits it. -/
def jsonEscapeChar (c : Char) : String :=
  let n := c.toNat
  if n = 34 then "\\\""
  else if n = 92 then "\\\\"
  else if n = 8 then "\\b"
  else if n = 12 then "\\f"
  else if n = 10 then "\\n"
  else if n = 13 then "\\r"
  else if n = 9 then "\\t"
  else if n < 32 then
    "\\u00" ++ String.singleton (hexDigitLower (n / 16))
      ++ String.singleton (hexDigitLower (n % 16))
  else String.singleton c

/-- A JSON string literal for `s`. -/
def jsonString (s : String) : String :=
  "\"" ++ String.join (s.data.map jsonEscapeChar) ++ "\""

/-- `JSON.stringify` of one item record (insertion order of the literal). -/
def itemToJson (it : Item) : String :=
  "\x7b\"qty\":" ++ jsonString it.qty
    ++ ",\"desc\":" ++ jsonString it.desc
    ++ ",\"material\":" ++ jsonString it.material
    ++ ",\"notes\":" ++ jsonString it.notes ++ "\x7d"

/-- `JSON.stringify` of the items array. -/
def itemsToJson (items : List Item) : String :=
  "[" ++ String.intercalate "," (items.map itemToJson) ++ "]"

/-! ## submitOrder (src/unnamed/part_002, lines 41-83) -/

/-- The record read from one row: `r.querySelector(...)?.value || ""`. -/
def rowRecord (r : ItemRow) : Item :=
  { qty := jsOrS r.qty "", desc := jsOrS r.desc "",
    material := jsOrS r.material "", notes := jsOrS r.notes "" }

/-- The filter `it.qty || it.desc || it.material || it.notes`. -/
def itemKeep (it : Item) : Bool :=
  !(it.qty == "") || !(it.desc == "") || !(it.material == "") || !(it.notes == "")

/-- The list serialized into `items_json`: one record per row, rows whose
four read fields are all empty dropped. -/
def buildItems (rows : List ItemRow) : List Item :=
  (rows.map rowRecord).filter itemKeep

/-- `form.id === 'quickOrderForm' ? 'q_itemsBody' : 'l_itemsBody'`. -/
def itemsTbodyId (formId : String) : String :=
  if formId = "quickOrderForm" then "q_itemsBody" else "l_itemsBody"

/-- `document.querySelectorAll("#" + itemsTbodyId + " .item-row")`: the rows
of the container bound to the submitting form (empty when absent). -/
def rowsFor (doc : Doc) (formId : String) : List ItemRow :=
  (doc.containers.lookup (itemsTbodyId formId)).getD []

/-- `form.id === 'quickOrderForm' ? 'quick' : 'large'`. -/
def orderTypeOf (formId : String) : String :=
  if formId = "quickOrderForm" then "quick" else "large"

/-- Parsed JSON response body.  `okF` is the truthiness of `data.ok`; the
string fields are `none` when absent. -/
structure RespBody where
  okF : Bool
  order_id : Option String
  job_id : Option String
  error : Option String
  message : Option String
deriving DecidableEq, Repr

/-- The empty object `{}` substituted when JSON parsing fails. -/
def emptyBody : RespBody :=
  { okF := false, order_id := none, job_id := none, error := none, message := none }

/-- A completed `fetch` response: `res.ok`, `res.status`, and the parsed
body (`none` models `res.json()` rejecting, caught into `{}`). -/
structure FetchResponse where
  ok : Bool
  status : Nat
  body : Option RespBody
deriving DecidableEq, Repr

/-- The failure redirect `/order-status.html?ok=0&msg=...`. -/
def failRedirect (msg : String) : String :=
  "/order-status.html?ok=0&msg=" ++ encodeURIComponent msg

/-- The success redirect `/order-status.html?ok=1&order_id=...&job_id=...`. -/
def successRedirect (orderId jobId : String) : String :=
  "/order-status.html?ok=1&order_id=" ++ encodeURIComponent orderId
    ++ "&job_id=" ++ encodeURIComponent jobId

/-- `finally`: re-enable the button and restore `dataset._text || "Submit"`. -/
def finalizeBtn (b : Option Button) : Option Button :=
  b.map (fun x => { x with disabled := false, textContent := jsOrS x.datasetText "Submit" })

/-- Everything observable about one `submitOrder` run: whether validation
passed, whether `fetch` was reached, the `order_type` and `items_json`
entries appended to the payload, the redirect assigned to
`window.location.href`, whether `form.reset()` ran, and the final button,
form and error-panel states. -/
structure SubmitOutcome where
  validated : Bool
  fetchCalled : Bool
  orderType : Option String
  itemsJson : Option String
  redirect : Option String
  formReset : Bool
  btn : Option Button
  form : Form
  errorBox : ErrorBox
deriving DecidableEq, Repr

/-- `submitOrder(form, errorBox)` with the network modelled as an input:
`Except.error m` is a thrown error whose `message` is `m`; `Except.ok res`
is a completed response. -/
def submitOrder (doc : Doc) (form : Form) (eb : ErrorBox)
    (fr : Except (Option String) FetchResponse) : SubmitOutcome :=
  let v := validateForm doc form eb
  if v.2.2 = false then
    { validated := false, fetchCalled := false, orderType := none,
      itemsJson := none, redirect := none, formReset := false,
      btn := form.submitBtn, form := v.1, errorBox := v.2.1 }
  else
    let btn1 := form.submitBtn.map (fun b =>
      { disabled := true, textContent := "Sending...", datasetText := some b.textContent })
    let items := buildItems (rowsFor doc form.id)
    let otype := orderTypeOf form.id
    let ijson := itemsToJson items
    match fr with
    | .error m =>
      { validated := true, fetchCalled := true, orderType := some otype,
        itemsJson := some ijson,
        redirect := some (failRedirect (jsOrS m "Network error")),
        formReset := false, btn := finalizeBtn btn1, form := v.1, errorBox := v.2.1 }
    | .ok res =>
      let data := (res.body).getD emptyBody
      if !res.ok || !data.okF then
        { validated := true, fetchCalled := true, orderType := some otype,
          itemsJson := some ijson,
          redirect := some (failRedirect (jsOrS data.error (jsOrS data.message
            ("Request failed (" ++ toString res.status ++ ")")))),
          formReset := false, btn := finalizeBtn btn1, form := v.1, errorBox := v.2.1 }
      else
        { validated := true, fetchCalled := true, orderType := some otype,
          itemsJson := some ijson,
          redirect := some (successRedirect (jsOrS data.order_id "") (jsOrS data.job_id "")),
          formReset := true, btn := finalizeBtn btn1, form := v.1, errorBox := v.2.1 }

/-! ## Slideshow configuration (src/unnamed/part_001, lines 5-13, 27-28) -/

def FOLDER : String := "images/Collection/Slides/"
def THUMB_FOLDER : String := "images/Collection/Thumbs/"
def BASENAME : String := "slide-"
def EXT : String := "webp"
def COUNT : Nat := 44
def AUTOPLAY_MS : Nat := 4500

/-- `fullImages`: `FOLDER + BASENAME + (i+1) + "." + EXT` for `i < COUNT`. -/
def fullImages : List String :=
  (List.range COUNT).map (fun i => FOLDER ++ BASENAME ++ toString (i + 1) ++ "." ++ EXT)

/-- `thumbImages`, same naming under the thumbnail folder. -/
def thumbImages : List String :=
  (List.range COUNT).map (fun i => THUMB_FOLDER ++ BASENAME ++ toString (i + 1) ++ "." ++ EXT)

/-! ## Slide rendering and the autoplay tick (part_001, lines 33-81) -/

/-- What `renderSlide` + `updateStatus` leave in the DOM for index `i`:
the slide image source and the "i+1 / total" status text. -/
structure SlideView where
  idx : Nat
  srcShown : Option String
  statusText : String
deriving DecidableEq, Repr

/-- The status string: `"{idx+1} / {total}"`, empty for an empty set. -/
def statusOf (images : List String) (i : Nat) : String :=
  if images.length ≠ 0 then toString (i + 1) ++ " / " ++ toString images.length else ""

/-- The view after `renderSlide()` at index `i`. -/
def renderAt (images : List String) (i : Nat) : SlideView :=
  { idx := i, srcShown := images.get? i, statusText := statusOf images i }

/-- One autoplay tick: `idx = (idx + 1) % fullImages.length; renderSlide()`. -/
def tickOnce (images : List String) (s : SlideView) : SlideView :=
  renderAt images ((s.idx + 1) % images.length)

/-! ## Lightbox / autoplay-timer state machine (part_001, lines 38-53, 75-86, 130-140)

`setInterval` handles are positive integers, so the truthiness test
`if (autoplay)` coincides with the handle being present; handles are
allocated from a fresh counter and `timers` is the set of live intervals. -/

structure GalState where
  idx : Nat
  autoplay : Option Nat
  nextT : Nat
  timers : List Nat
  lbHidden : Bool
  docHidden : Bool
deriving DecidableEq, Repr

/-- `stopAutoplay()`: `if (autoplay) clearInterval(autoplay); autoplay = null`. -/
def stopAP (s : GalState) : GalState :=
  match s.autoplay with
  | some h => { s with timers := s.timers.erase h, autoplay := none }
  | none => { s with autoplay := none }

/-- `startAutoplay()`: `stopAutoplay()` first, then register a fresh interval. -/
def startAP (s : GalState) : GalState :=
  let s1 := stopAP s
  { s1 with
    autoplay := some s1.nextT,
    timers := (s1.timers ++ [s1.nextT]),
    nextT := s1.nextT + 1 }

/-- `openLightbox`: reveal the overlay, then `stopAutoplay()`. -/
def doOpenLb (s : GalState) : GalState :=
  stopAP { s with lbHidden := false }

/-- `closeLightbox`: hide the overlay, then `startAutoplay()`. -/
def doCloseLb (s : GalState) : GalState :=
  startAP { s with lbHidden := true }

/-- The events that can reach the controller: opening the lightbox (close
button/backdrop click handled by `closeLb`), the Escape key, a visibility
change, and an interval callback firing for handle `h`. -/
inductive GEv where
  | openLb : GEv
  | closeLb : GEv
  | escape : GEv
  | visChange : Bool → GEv
  | tick : Nat → GEv
deriving DecidableEq, Repr

/-- One event step of the controller; `total` is `fullImages.length`. -/
def gstep (total : Nat) (s : GalState) : GEv → GalState
  | .openLb => doOpenLb s
  | .closeLb => doCloseLb s
  | .escape => if s.lbHidden then s else doCloseLb s
  | .visChange h =>
    let s1 := { s with docHidden := h }
    if h then stopAP s1 else startAP s1
  | .tick h =>
    if s.timers.contains h then { s with idx := (s.idx + 1) % total } else s

/-- The state after page-load initialisation (`startAutoplay()` at the end
of the script, lightbox hidden, page visible). -/
def ginit : GalState :=
  startAP { idx := 0, autoplay := none, nextT := 1, timers := [],
            lbHidden := true, docHidden := false }

/-- The state reached from initialisation by an event sequence. -/
def grun (total : Nat) (evs : List GEv) : GalState :=
  evs.foldl (gstep total) ginit

/-- Timer bookkeeping invariant: the live-interval set is exactly the
current handle, and all live handles are below the fresh counter. -/
def TimerInv (s : GalState) : Prop :=
  match s.autoplay with
  | some h => s.timers = [h] ∧ h < s.nextT
  | none => s.timers = []

/-! ## Gallery lazy loading (part_001, lines 100-126) -/

/-- One gallery placeholder image: the deferred `data-src`, the real
`src`, whether the observer still watches it, and how many times the real
source has been assigned. -/
structure ImgEl where
  dataSrc : Option String
  src : Option String
  observed : Bool
  writes : Nat
deriving DecidableEq, Repr

/-- A freshly rendered placeholder for deferred source `u`. -/
def initImg (u : String) : ImgEl :=
  { dataSrc := some u, src := none, observed := true, writes := 0 }

/-- The observer callback body for one entry with intersection flag `b`:
skip non-intersecting entries; otherwise promote a truthy `data-src` to
`src`, delete it, and unobserve. -/
def ioStep (e : ImgEl) (b : Bool) : ImgEl :=
  if b then
    let e1 :=
      match e.dataSrc with
      | some u =>
        if u ≠ "" then { e with src := some u, dataSrc := none, writes := e.writes + 1 }
        else e
      | none => e
    { e1 with observed := false }
  else e

/-- The `rootMargin` the observer is constructed with. -/
def rootMarginConfig : String := "350px 0px"

/-- The deferred source of placeholder `i`: `thumbImages[i] || url`. -/
def gallerySrc (i : Nat) : String :=
  jsOrS (thumbImages.get? i) ((fullImages.get? i).getD "")

/-! ## Auxiliary definitions used in the statements -/

/-- Forget the error-marker class (for "equal up to markers" statements). -/
def clearMark (el : Control) : Control := { el with classError := false }

/-- A placeholder after its one-shot load of source `u`. -/
def loadedImg (u : String) : ImgEl :=
  { dataSrc := none, src := some u, observed := false, writes := 1 }

/-- No usable `label[for=...]` exists for this control: its id is absent,
empty, or matches no label. -/
def noLabelFor (doc : Doc) (el : Control) : Prop :=
  match el.idAttr with
  | some i => i = "" ∨ doc.labels.lookup i = none
  | none => True

/-! ## Concrete instances used by witnesses and counterexamples -/

def wEb : ErrorBox := { display := "", innerHTML := "" }

def wCtlName : Control :=
  { ctype := "text", checked := false, value := "John", idAttr := none,
    nameAttr := some "name", placeholder := none, required := true, classError := false }

def wCtlEmail : Control :=
  { ctype := "email", checked := false, value := "j@example.com", idAttr := none,
    nameAttr := some "email", placeholder := none, required := true, classError := false }

def wCtlPhone : Control :=
  { ctype := "text", checked := false, value := "", idAttr := none,
    nameAttr := some "phone", placeholder := none, required := true, classError := false }

def wBtn : Button := { disabled := false, textContent := "Send", datasetText := none }

/-- A form with 3 required fields, one empty, and zero item rows. -/
def wFormInvalid : Form :=
  { id := "quickOrderForm", controls := [wCtlName, wCtlEmail, wCtlPhone],
    itemRows := [], submitBtn := some wBtn }

def wRow2 : ItemRow :=
  { qty := some "2", desc := some "", material := some "", notes := some "" }

def wRowEmpty : ItemRow :=
  { qty := some "", desc := some "", material := some "", notes := some "" }

def wDocQ : Doc :=
  { labels := [], containers := [("q_itemsBody", [wRowEmpty, wRow2])] }

/-- A valid quick-order form. -/
def wFormOk : Form :=
  { id := "quickOrderForm", controls := [wCtlName], itemRows := [wRow2],
    submitBtn := some wBtn }

def wBodyOk : RespBody :=
  { okF := true, order_id := some "A1", job_id := some "J9", error := none, message := none }

def wResOk : FetchResponse := { ok := true, status := 200, body := some wBodyOk }

def wBtnEmpty : Button := { disabled := false, textContent := "", datasetText := none }

/-- A valid form whose submit button has an empty label. -/
def wFormEmptyBtn : Form :=
  { id := "quickOrderForm", controls := [], itemRows := [wRow2],
    submitBtn := some wBtnEmpty }

def wLabelDoc : Doc := { labels := [("fa", "Name*")], containers := [] }

def wLabelCtl : Control :=
  { ctype := "text", checked := false, value := "", idAttr := some "fa",
    nameAttr := some "nm", placeholder := none, required := true, classError := false }

/-! ## Helper lemmas -/

theorem forall2_map_self {α β : Type} (f : α → β) (P : β → α → Prop)
    (l : List α) (h : ∀ a, P (f a) a) : List.Forall₂ P (l.map f) l := by
  induction l with
  | nil => exact List.Forall₂.nil
  | cons a t ih => exact List.Forall₂.cons (h a) ih

theorem filter_of_map {α β : Type} (f : α → β) (p : β → Bool) (l : List α) :
    (l.map f).filter p = (l.filter (fun a => p (f a))).map f := by
  induction l with
  | nil => rfl
  | cons a t ih =>
    simp only [List.map_cons, List.filter_cons]
    by_cases h : p (f a) <;> simp [h, ih]

theorem validateForm_fst (doc : Doc) (form : Form) (eb : ErrorBox) :
    (validateForm doc form eb).1 = { form with controls := form.controls.map markOne } := by
  unfold validateForm
  by_cases h : (collectMissing doc form).isEmpty <;> simp [h]

theorem validateForm_flag (doc : Doc) (form : Form) (eb : ErrorBox) :
    (validateForm doc form eb).2.2 = (collectMissing doc form).isEmpty := by
  unfold validateForm
  by_cases h : (collectMissing doc form).isEmpty <;> simp [h]

theorem validateForm_box_fail (doc : Doc) (form : Form) (eb : ErrorBox)
    (h : collectMissing doc form ≠ []) :
    (validateForm doc form eb).2.1
      = { display := "block", innerHTML := errorsHtml (collectMissing doc form) } := by
  unfold validateForm
  simp [List.isEmpty_iff, h]

theorem validateForm_box_succ (doc : Doc) (form : Form) (eb : ErrorBox)
    (h : collectMissing doc form = []) :
    (validateForm doc form eb).2.1 = { display := "none", innerHTML := "" } := by
  unfold validateForm
  simp [List.isEmpty_iff, h]

theorem clearMark_markOne (el : Control) : clearMark (markOne el) = clearMark el := by
  unfold clearMark markOne
  by_cases h : el.required <;> simp [h]

theorem timerInv_of_eq (t : GalState) {s : GalState} (h : TimerInv s)
    (hA : t.autoplay = s.autoplay) (hT : t.timers = s.timers)
    (hN : t.nextT = s.nextT) : TimerInv t := by
  unfold TimerInv at h ⊢
  rw [hA, hT, hN]
  exact h

theorem stopAP_spec {s : GalState} (h : TimerInv s) :
    (stopAP s).timers = [] ∧ (stopAP s).autoplay = none ∧ (stopAP s).nextT = s.nextT := by
  unfold TimerInv at h
  unfold stopAP
  cases hA : s.autoplay with
  | none =>
    rw [hA] at h
    exact ⟨h, rfl, rfl⟩
  | some x =>
    rw [hA] at h
    refine ⟨?_, rfl, rfl⟩
    rw [h.1]
    simp [List.erase_cons_head]

theorem timerInv_stopAP {s : GalState} (h : TimerInv s) : TimerInv (stopAP s) := by
  have hs := stopAP_spec h
  unfold TimerInv
  rw [hs.2.1, hs.1]

theorem startAP_spec {s : GalState} (h : TimerInv s) :
    (startAP s).timers = [s.nextT] ∧ (startAP s).autoplay = some s.nextT
      ∧ (startAP s).nextT = s.nextT + 1 := by
  have hs := stopAP_spec h
  unfold startAP
  simp [hs.1, hs.2.2]

theorem timerInv_startAP {s : GalState} (h : TimerInv s) : TimerInv (startAP s) := by
  have hs := startAP_spec h
  unfold TimerInv
  rw [hs.2.1, hs.1, hs.2.2]
  exact ⟨rfl, Nat.lt_succ_self _⟩

theorem timerInv_gstep (total : Nat) {s : GalState} (h : TimerInv s) (e : GEv) :
    TimerInv (gstep total s e) := by
  cases e with
  | openLb =>
    exact timerInv_stopAP (timerInv_of_eq { s with lbHidden := false } h rfl rfl rfl)
  | closeLb =>
    exact timerInv_startAP (timerInv_of_eq { s with lbHidden := true } h rfl rfl rfl)
  | escape =>
    unfold gstep
    by_cases hl : s.lbHidden
    · simpa [hl] using h
    · have hc : TimerInv (doCloseLb s) :=
        timerInv_startAP (timerInv_of_eq { s with lbHidden := true } h rfl rfl rfl)
      simpa [hl] using hc
  | visChange b =>
    cases b with
    | true => exact timerInv_stopAP (timerInv_of_eq { s with docHidden := true } h rfl rfl rfl)
    | false => exact timerInv_startAP (timerInv_of_eq { s with docHidden := false } h rfl rfl rfl)
  | tick x =>
    unfold gstep
    by_cases ht : x ∈ s.timers
    · have hc : TimerInv { s with idx := (s.idx + 1) % total } :=
        timerInv_of_eq { s with idx := (s.idx + 1) % total } h rfl rfl rfl
      simpa [ht] using hc
    · simpa [ht] using h

theorem timerInv_ginit : TimerInv ginit := by
  unfold ginit
  exact timerInv_startAP rfl

theorem timerInv_foldl (total : Nat) :
    ∀ (l : List GEv) (s : GalState), TimerInv s → TimerInv (l.foldl (gstep total) s) := by
  intro l
  induction l with
  | nil => intro s hs; exact hs
  | cons e t ih => intro s hs; exact ih _ (timerInv_gstep total hs e)

theorem timerInv_grun (total : Nat) (evs : List GEv) : TimerInv (grun total evs) :=
  timerInv_foldl total evs ginit timerInv_ginit

theorem ioStep_loaded (u : String) (b : Bool) : ioStep (loadedImg u) b = loadedImg u := by
  cases b <;> rfl

theorem foldl_ioStep_loaded (u : String) (es : List Bool) :
    es.foldl ioStep (loadedImg u) = loadedImg u := by
  induction es with
  | nil => rfl
  | cons b t ih => simp [List.foldl_cons, ioStep_loaded, ih]

theorem ioStep_init_true {u : String} (hu : u ≠ "") :
    ioStep (initImg u) true = loadedImg u := by
  simp [ioStep, initImg, loadedImg, hu]

theorem foldl_ioStep_init (u : String) (hu : u ≠ "") (es : List Bool) :
    (es.contains true = true → es.foldl ioStep (initImg u) = loadedImg u)
      ∧ (es.contains true = false → es.foldl ioStep (initImg u) = initImg u) := by
  induction es with
  | nil => exact ⟨fun h => by simp at h, fun _ => rfl⟩
  | cons b t ih =>
    cases b with
    | true =>
      refine ⟨fun _ => ?_, fun h => by simp at h⟩
      rw [List.foldl_cons, ioStep_init_true hu, foldl_ioStep_loaded]
    | false =>
      refine ⟨fun h => ?_, fun h => ?_⟩
      · rw [List.foldl_cons]
        exact ih.1 (by simpa using h)
      · rw [List.foldl_cons]
        exact ih.2 (by simpa using h)

theorem iterate_tickOnce (images : List String) (i : Nat)
    (h2 : i < images.length) : ∀ N : Nat,
    (tickOnce images)^[N] (renderAt images i)
      = renderAt images ((i + N) % images.length) := by
  intro N
  induction N with
  | zero =>
    simp [Nat.mod_eq_of_lt h2]
  | succ n ih =>
    rw [Function.iterate_succ_apply', ih]
    unfold tickOnce renderAt
    simp [Nat.mod_add_mod, Nat.add_assoc]

theorem stopAP_autoplay (s : GalState) : (stopAP s).autoplay = none := by
  cases hA : s.autoplay <;> simp [stopAP, hA]

theorem startAP_autoplay (s : GalState) : (startAP s).autoplay = some s.nextT := by
  cases hA : s.autoplay <;> simp [startAP, stopAP, hA]

theorem humanLabel_fallback {doc : Doc} {el : Control} (h : noLabelFor doc el) :
    humanLabel doc el = jsTrim (jsOrS el.nameAttr (jsOrS el.placeholder "Required field")) := by
  unfold noLabelFor at h
  unfold humanLabel
  cases hI : el.idAttr with
  | none => rfl
  | some i =>
    rw [hI] at h
    rcases h with hi | hl
    · simp [hi]
    · by_cases hi : i = ""
      · simp [hi]
      · simp [hi, hl]

/-! ## Claims -/

/-- C1: for every required control, checkboxes are valid iff checked and
all others iff their trimmed value is non-empty; every invalid required
control gets the error marker independently; zero item rows adds the
literal "At least 1 item line"; validation fails iff any error was
collected, in which case the panel shows one entry per error and the form
is not submitted; with no errors the panel is hidden and cleared and
validation succeeds. -/
theorem claim_C1 (doc : Doc) (form : Form) (eb : ErrorBox) :
    List.Forall₂ (fun a b =>
        (b.required = true →
          a.classError = (if b.ctype = "checkbox" then !b.checked else (jsTrim b.value == "")))
        ∧ (b.required = false → a.classError = b.classError))
      (validateForm doc form eb).1.controls form.controls
    ∧ (form.itemRows.length = 0 → "At least 1 item line" ∈ collectMissing doc form)
    ∧ ((validateForm doc form eb).2.2 = false ↔ collectMissing doc form ≠ [])
    ∧ (collectMissing doc form ≠ [] →
        (validateForm doc form eb).2.1.display = "block"
        ∧ (validateForm doc form eb).2.1.innerHTML = errorsHtml (collectMissing doc form)
        ∧ ∀ fr, (submitOrder doc form eb fr).fetchCalled = false)
    ∧ (collectMissing doc form = [] →
        (validateForm doc form eb).2.2 = true
        ∧ (validateForm doc form eb).2.1.display = "none"
        ∧ (validateForm doc form eb).2.1.innerHTML = "") := by
  refine ⟨?_, ?_, ?_, ?_, ?_⟩
  · rw [validateForm_fst]
    refine forall2_map_self markOne _ form.controls (fun a => ⟨?_, ?_⟩)
    · intro ha
      by_cases hc : a.ctype = "checkbox" <;>
        simp [markOne, controlOk, ha, hc]
    · intro ha
      simp [markOne, ha]
  · intro h0
    simp [collectMissing, h0]
  · rw [validateForm_flag]
    simp [List.isEmpty_iff]
  · intro hne
    have hv : (validateForm doc form eb).2.2 = false := by
      rw [validateForm_flag]
      simpa [List.isEmpty_iff] using hne
    refine ⟨?_, ?_, fun fr => ?_⟩
    · rw [validateForm_box_fail doc form eb hne]
    · rw [validateForm_box_fail doc form eb hne]
    · simp [submitOrder, hv]
  · intro heq
    refine ⟨?_, ?_, ?_⟩
    · rw [validateForm_flag, heq]
      rfl
    · rw [validateForm_box_succ doc form eb heq]
    · rw [validateForm_box_succ doc form eb heq]

/-- Witness for C1 at the spec's example: three required fields, one
empty, zero item rows. -/
theorem claim_C1_witness :
    collectMissing wDocQ wFormInvalid = ["phone", "At least 1 item line"]
    ∧ (validateForm wDocQ wFormInvalid wEb).2.2 = false
    ∧ (submitOrder wDocQ wFormInvalid wEb (Except.ok wResOk)).fetchCalled = false := by
  refine ⟨by decide, ?_, ?_⟩
  · exact (claim_C1 wDocQ wFormInvalid wEb).2.2.1.mpr (by decide)
  · exact ((claim_C1 wDocQ wFormInvalid wEb).2.2.2.1 (by decide)).2.2 (Except.ok wResOk)

/-- C2: after a validated submission, a thrown error redirects with ok=0
and the error message or "Network error"; a non-ok response or falsy body
flag redirects with ok=0 and message priority error / message / "Request
failed ({status})"; otherwise the form is reset and the redirect carries
ok=1 with the (defaulted, URL-encoded) order and job ids; an unparsable
body behaves exactly like an empty object. -/
theorem claim_C2 (doc : Doc) (form : Form) (eb : ErrorBox)
    (hv : (validateForm doc form eb).2.2 = true) :
    (∀ m : Option String,
        (submitOrder doc form eb (Except.error m)).redirect
          = some (failRedirect (jsOrS m "Network error"))
        ∧ (submitOrder doc form eb (Except.error m)).formReset = false)
    ∧ (∀ res : FetchResponse, res.ok = false ∨ (res.body.getD emptyBody).okF = false →
        (submitOrder doc form eb (Except.ok res)).redirect
          = some (failRedirect (jsOrS (res.body.getD emptyBody).error
              (jsOrS (res.body.getD emptyBody).message
                ("Request failed (" ++ toString res.status ++ ")"))))
        ∧ (submitOrder doc form eb (Except.ok res)).formReset = false)
    ∧ (∀ res : FetchResponse, res.ok = true → (res.body.getD emptyBody).okF = true →
        (submitOrder doc form eb (Except.ok res)).formReset = true
        ∧ (submitOrder doc form eb (Except.ok res)).redirect
          = some (successRedirect (jsOrS (res.body.getD emptyBody).order_id "")
              (jsOrS (res.body.getD emptyBody).job_id "")))
    ∧ (∀ res : FetchResponse, res.body = none →
        submitOrder doc form eb (Except.ok res)
          = submitOrder doc form eb (Except.ok { res with body := some emptyBody })) := by
  refine ⟨?_, ?_, ?_, ?_⟩
  · intro m
    constructor <;> simp [submitOrder, hv]
  · intro res hcase
    have hbool : (!res.ok || !(res.body.getD emptyBody).okF) = true := by
      rcases hcase with h | h <;> simp [h]
    constructor <;> simp [submitOrder, hv, hbool]
  · intro res h1 h2
    have hbool : (!res.ok || !(res.body.getD emptyBody).okF) = false := by
      simp [h1, h2]
    constructor <;> simp [submitOrder, hv, hbool]
  · intro res hb
    cases res with
    | mk rok rstatus rbody =>
      simp only at hb
      subst hb
      simp [submitOrder, hv]

/-- Witness for C2 at the spec's example response. -/
theorem claim_C2_witness :
    (submitOrder wDocQ wFormOk wEb (Except.ok wResOk)).formReset = true
    ∧ (submitOrder wDocQ wFormOk wEb (Except.ok wResOk)).redirect
        = some "/order-status.html?ok=1&order_id=A1&job_id=J9" := by
  have h := (claim_C2 wDocQ wFormOk wEb (by decide)).2.2.1 wResOk (by decide) (by decide)
  exact ⟨h.1, h.2.trans (by decide)⟩

/-- C3: the payload holds one record per item row of the form's bound
container in row order, rows with all four fields empty dropped; the
surviving list is JSON-serialized into items_json; order_type is "quick"
for the quick-order form and "large" for the large-order form. -/
theorem claim_C3 (doc : Doc) (form : Form) (eb : ErrorBox)
    (fr : Except (Option String) FetchResponse)
    (hv : (validateForm doc form eb).2.2 = true) :
    (∀ rows : List ItemRow,
        buildItems rows = (rows.filter (fun r => itemKeep (rowRecord r))).map rowRecord)
    ∧ (submitOrder doc form eb fr).itemsJson
        = some (itemsToJson (buildItems (rowsFor doc form.id)))
    ∧ (submitOrder doc form eb fr).orderType = some (orderTypeOf form.id)
    ∧ (form.id = "quickOrderForm" → (submitOrder doc form eb fr).orderType = some "quick")
    ∧ (form.id = "largeOrderForm" → (submitOrder doc form eb fr).orderType = some "large") := by
  have hot : (submitOrder doc form eb fr).orderType = some (orderTypeOf form.id)
      ∧ (submitOrder doc form eb fr).itemsJson
          = some (itemsToJson (buildItems (rowsFor doc form.id))) := by
    cases fr with
    | error m => constructor <;> simp [submitOrder, hv]
    | ok res =>
      by_cases hc : (!res.ok || !(res.body.getD emptyBody).okF) = true
      · constructor <;> simp [submitOrder, hv, hc]
      · constructor <;> simp [submitOrder, hv, hc]
  refine ⟨fun rows => ?_, hot.2, hot.1, fun hq => ?_, fun hl => ?_⟩
  · unfold buildItems
    exact filter_of_map rowRecord itemKeep rows
  · rw [hot.1, hq]
    decide
  · rw [hot.1, hl]
    decide

/-- Witness for C3 at the spec's example: two rows, one fully empty and
one with qty="2", on the quick-order form. -/
theorem claim_C3_witness :
    buildItems (rowsFor wDocQ "quickOrderForm")
      = [{ qty := "2", desc := "", material := "", notes := "" }]
    ∧ (submitOrder wDocQ wFormOk wEb (Except.ok wResOk)).orderType = some "quick"
    ∧ (submitOrder wDocQ wFormOk wEb (Except.ok wResOk)).itemsJson
        = some "[\x7b\"qty\":\"2\",\"desc\":\"\",\"material\":\"\",\"notes\":\"\"\x7d]" := by
  refine ⟨by decide, ?_, ?_⟩
  · exact (claim_C3 wDocQ wFormOk wEb (Except.ok wResOk) (by decide)).2.2.2.1 rfl
  · exact ((claim_C3 wDocQ wFormOk wEb (Except.ok wResOk) (by decide)).2.1).trans (by decide)

/-- C4: each autoplay tick advances the index by 1 modulo the set size
and re-renders, so after N ticks from index i the displayed index (and
slide source) is (i+N) mod total; the index wraps from total-1 to 0. -/
theorem claim_C4 (images : List String) (i N : Nat)
    (h1 : 1 ≤ images.length) (h2 : i < images.length) :
    ((tickOnce images)^[N] (renderAt images i)).idx = (i + N) % images.length
    ∧ ((tickOnce images)^[N] (renderAt images i)).srcShown
        = images.get? ((i + N) % images.length)
    ∧ (tickOnce images (renderAt images (images.length - 1))).idx = 0 := by
  have hiter := iterate_tickOnce images i h2
  refine ⟨?_, ?_, ?_⟩
  · rw [hiter N]
    rfl
  · rw [hiter N]
    rfl
  · unfold tickOnce renderAt
    simp [Nat.sub_add_cancel h1, Nat.mod_self]

/-- Witness for C4 on the script's 44-image set: 44 ticks from 0 return
to 0, and a tick at index 43 wraps to 0. -/
theorem claim_C4_witness :
    ((tickOnce fullImages)^[44] (renderAt fullImages 0)).idx = 0
    ∧ (tickOnce fullImages (renderAt fullImages (fullImages.length - 1))).idx = 0 := by
  have h := claim_C4 fullImages 0 44 (by decide) (by decide)
  exact ⟨h.1.trans (by decide), h.2.2⟩

/-- C5 as stated is false: with the lightbox open, a visibility change to
visible restarts autoplay.  After Open, Hide, Show the lightbox is still
open yet a timer is live, and its tick advances the slideshow. -/
theorem claim_C5_cex :
    (grun 44 [GEv.openLb, GEv.visChange true, GEv.visChange false]).lbHidden = false
    ∧ (grun 44 [GEv.openLb, GEv.visChange true, GEv.visChange false]).autoplay = some 2
    ∧ (grun 44 [GEv.openLb, GEv.visChange true, GEv.visChange false,
        GEv.tick 2]).idx = 1
    ∧ (grun 44 [GEv.openLb]).autoplay = none := by
  decide

/-- C5 amended: opening the lightbox halts autoplay, and while the
lightbox is open with autoplay stopped, no tick fires and neither opening
again nor a visibility change to hidden restarts it; but closing the
lightbox or a visibility change to visible does restart it (the latter
even while the lightbox stays open). -/
theorem claim_C5_amended (total : Nat) (evs : List GEv) (k : Nat)
    (_hopen : (grun total evs).lbHidden = false)
    (hstop : (grun total evs).autoplay = none) :
    (gstep total (grun total evs) GEv.openLb).autoplay = none
    ∧ (gstep total (grun total evs) (GEv.visChange true)).autoplay = none
    ∧ gstep total (grun total evs) (GEv.tick k) = grun total evs
    ∧ (gstep total (grun total evs) GEv.closeLb).autoplay = some (grun total evs).nextT
    ∧ (gstep total (grun total evs) (GEv.visChange false)).autoplay
        = some (grun total evs).nextT := by
  have hinv := timerInv_grun total evs
  have htimers : (grun total evs).timers = [] := by
    unfold TimerInv at hinv
    rw [hstop] at hinv
    exact hinv
  refine ⟨stopAP_autoplay _, stopAP_autoplay _, ?_, startAP_autoplay _, startAP_autoplay _⟩
  simp [gstep, htimers]

/-- Witness for C5 amended, right after opening the lightbox. -/
theorem claim_C5_witness :
    gstep 44 (grun 44 [GEv.openLb]) (GEv.tick 1) = grun 44 [GEv.openLb]
    ∧ (gstep 44 (grun 44 [GEv.openLb]) (GEv.visChange false)).autoplay = some 2 := by
  have h := claim_C5_amended 44 [GEv.openLb] 1 (by decide) (by decide)
  exact ⟨h.2.2.1, h.2.2.2.2.trans (by decide)⟩

/-- C6: after any event sequence at most one timer is live; starting
autoplay cancels any existing timer and leaves exactly the fresh one;
stopping clears the live set and nulls the handle. -/
theorem claim_C6 (total : Nat) (evs : List GEv) :
    ((grun total evs).timers).length ≤ 1
    ∧ (startAP (grun total evs)).timers = [(grun total evs).nextT]
    ∧ (stopAP (grun total evs)).autoplay = none
    ∧ (stopAP (grun total evs)).timers = [] := by
  have hinv := timerInv_grun total evs
  have hstop := stopAP_spec hinv
  have hstart := startAP_spec hinv
  refine ⟨?_, hstart.1, hstop.2.1, hstop.1⟩
  unfold TimerInv at hinv
  cases hA : (grun total evs).autoplay with
  | none =>
    rw [hA] at hinv
    simp [hinv]
  | some x =>
    rw [hA] at hinv
    simp [hinv.1]

/-- C7: a placeholder's real source is assigned exactly once, only after
its first intersecting report, after which the deferred attribute is
removed and the element unobserved; without an intersecting report it is
untouched; the observer uses the 350px root margin. -/
theorem claim_C7 (u : String) (hu : u ≠ "") (es : List Bool) :
    (es.contains true = true →
      es.foldl ioStep (initImg u)
        = { dataSrc := none, src := some u, observed := false, writes := 1 })
    ∧ (es.contains true = false → es.foldl ioStep (initImg u) = initImg u)
    ∧ rootMarginConfig = "350px 0px" :=
  ⟨(foldl_ioStep_init u hu es).1, (foldl_ioStep_init u hu es).2, rfl⟩

/-- Witness for C7 on the first gallery placeholder. -/
theorem claim_C7_witness :
    [false, true, true].foldl ioStep (initImg (gallerySrc 0))
      = { dataSrc := none, src := some (gallerySrc 0), observed := false, writes := 1 } :=
  (claim_C7 (gallerySrc 0) (by decide) [false, true, true]).1 (by decide)

/-- C8 as stated is false: the reported label is the label element's text
trimmed and with a trailing asterisk stripped, not the text itself. -/
theorem claim_C8_cex :
    wLabelDoc.labels.lookup "fa" = some "Name*"
    ∧ humanLabel wLabelDoc wLabelCtl = "Name"
    ∧ ("Name" : String) ≠ "Name*" := by
  decide

/-- C8 amended: the reported label is, in priority order, the trimmed
label-element text with one trailing asterisk removed (when the control
has a non-empty id matched by a label), else the trimmed name attribute
(when present and non-empty), else the trimmed placeholder (when present
and non-empty), else the literal "Required field". -/
theorem claim_C8_amended (doc : Doc) (el : Control) :
    (∀ i txt, el.idAttr = some i → i ≠ "" → doc.labels.lookup i = some txt →
      humanLabel doc el = stripTrailingStar (jsTrim txt))
    ∧ (noLabelFor doc el → ∀ n, el.nameAttr = some n → n ≠ "" →
        humanLabel doc el = jsTrim n)
    ∧ (noLabelFor doc el → (el.nameAttr = none ∨ el.nameAttr = some "") →
        ∀ p, el.placeholder = some p → p ≠ "" → humanLabel doc el = jsTrim p)
    ∧ (noLabelFor doc el → (el.nameAttr = none ∨ el.nameAttr = some "") →
        (el.placeholder = none ∨ el.placeholder = some "") →
        humanLabel doc el = "Required field") := by
  refine ⟨?_, ?_, ?_, ?_⟩
  · intro i txt hI hi hl
    unfold humanLabel
    rw [hI]
    simp [hi, hl]
  · intro hnl n hn hne
    rw [humanLabel_fallback hnl, hn]
    simp [jsOrS, hne]
  · intro hnl hname p hp hpne
    rw [humanLabel_fallback hnl, hp]
    rcases hname with h | h <;> rw [h] <;> simp [jsOrS, hpne]
  · intro hnl hname hph
    rw [humanLabel_fallback hnl]
    rcases hname with h | h <;> rw [h] <;> rcases hph with h2 | h2 <;> rw [h2] <;> decide

/-- Witness for C8 amended: a label "Name*" yields the reported label
"Name". -/
theorem claim_C8_witness :
    humanLabel wLabelDoc wLabelCtl = "Name" :=
  ((claim_C8_amended wLabelDoc wLabelCtl).1 "fa" "Name*" rfl (by decide) rfl).trans
    (by decide)

/-- C9 as stated is false: a submit button whose original label is the
empty string is restored to the fallback "Submit", not to its original
(empty) label. -/
theorem claim_C9_cex :
    wBtnEmpty.textContent = ""
    ∧ (submitOrder wDocQ wFormEmptyBtn wEb (Except.ok wResOk)).btn
        = some { disabled := false, textContent := "Submit", datasetText := some "" }
    ∧ ("Submit" : String) ≠ "" := by
  decide

/-- C9 amended: on every exit path of a validated submission the submit
control is re-enabled, and its label is restored to the original text
when that text is non-empty, and to "Submit" when the original text was
empty. -/
theorem claim_C9_amended (doc : Doc) (form : Form) (eb : ErrorBox)
    (fr : Except (Option String) FetchResponse) (b : Button)
    (hb : form.submitBtn = some b)
    (hv : (validateForm doc form eb).2.2 = true) :
    (submitOrder doc form eb fr).btn
      = some { disabled := false,
               textContent := if b.textContent = "" then "Submit" else b.textContent,
               datasetText := some b.textContent } := by
  cases fr with
  | error m => simp [submitOrder, hv, hb, finalizeBtn, jsOrS]
  | ok res =>
    by_cases hc : (!res.ok || !(res.body.getD emptyBody).okF) = true
    · simp [submitOrder, hv, hb, hc, finalizeBtn, jsOrS]
    · simp [submitOrder, hv, hb, hc, finalizeBtn, jsOrS]

/-- Witness for C9 amended: a "Send" button is re-enabled with its label
restored. -/
theorem claim_C9_witness :
    (submitOrder wDocQ wFormOk wEb (Except.error none)).btn
      = some { disabled := false, textContent := "Send", datasetText := some "Send" } := by
  have h := claim_C9_amended wDocQ wFormOk wEb (Except.error none) wBtn rfl (by decide)
  exact h.trans (by decide)

/-- C10: when validation fails the submit control is untouched (never
disabled, label never rewritten), no network request is made, no redirect
or reset happens, and the form differs only in its error markers while
the error panel is populated and shown. -/
theorem claim_C10 (doc : Doc) (form : Form) (eb : ErrorBox)
    (fr : Except (Option String) FetchResponse)
    (hv : (validateForm doc form eb).2.2 = false) :
    (submitOrder doc form eb fr).fetchCalled = false
    ∧ (submitOrder doc form eb fr).btn = form.submitBtn
    ∧ (submitOrder doc form eb fr).redirect = none
    ∧ (submitOrder doc form eb fr).formReset = false
    ∧ (submitOrder doc form eb fr).orderType = none
    ∧ (submitOrder doc form eb fr).itemsJson = none
    ∧ (submitOrder doc form eb fr).form.controls.map clearMark
        = form.controls.map clearMark
    ∧ (submitOrder doc form eb fr).form.id = form.id
    ∧ (submitOrder doc form eb fr).form.itemRows = form.itemRows
    ∧ (submitOrder doc form eb fr).form.submitBtn = form.submitBtn
    ∧ (submitOrder doc form eb fr).errorBox.display = "block"
    ∧ (submitOrder doc form eb fr).errorBox.innerHTML
        = errorsHtml (collectMissing doc form) := by
  have hne : collectMissing doc form ≠ [] := by
    intro hceq
    rw [validateForm_flag, hceq] at hv
    simp at hv
  have hmm : (clearMark ∘ markOne) = clearMark := funext clearMark_markOne
  refine ⟨?_, ?_, ?_, ?_, ?_, ?_, ?_, ?_, ?_, ?_, ?_, ?_⟩ <;>
    simp [submitOrder, hv, validateForm_fst, validateForm_box_fail doc form eb hne,
      List.map_map, hmm]

/-- Witness for C10 on an invalid form. -/
theorem claim_C10_witness :
    (submitOrder wDocQ wFormInvalid wEb (Except.error none)).fetchCalled = false
    ∧ (submitOrder wDocQ wFormInvalid wEb (Except.error none)).btn = some wBtn := by
  have h := claim_C10 wDocQ wFormInvalid wEb (Except.error none) (by decide)
  exact ⟨h.1, h.2.1.trans (by decide)⟩

end Crown
